import Mathlib

/-!
Shallow embedding of the driversweather core pipeline:
waypoint derivation (calculateWaypoints in src/lib/apiUtils.ts), the
driving-condition scorer (the drivingScore module), per-point severity
classification and trip assessment (src/components/WeatherSummary.tsx),
the departure comparison (getWaitMessage / get3hWaitMessage), and the two
provider weather-symbol mappers (apiUtils.ts).

JavaScript numbers are modelled as rationals (ℚ); integer-valued
quantities (penalties, scores, counts, symbols) as ℤ/ℕ.  JS Math.round
is modelled by jsRound (round half toward +∞), Math.floor by Int.floor
and Math.ceil by Int.ceil.  Date values are epoch milliseconds as ℚ.
A weather map (JS Map with possibly-null values) is a function from
waypoint index to Option WeatherData, or a list of Option WeatherData
where only the values in iteration order matter.
-/

namespace DriversWeather

/-- JS Math.round: rounds to the nearest integer, halves toward +∞. -/
def jsRound (x : ℚ) : ℤ := ⌊x + 1/2⌋

/-- interface WeatherData from apiUtils.ts (the normalized observation). -/
structure WeatherData where
  temperature : ℚ
  precipitationType : ℚ
  precipitationIntensity : ℚ
  windSpeed : ℚ
  visibility : ℚ
  weatherSymbol : ℤ
  sunrise : Option ℚ := Option.none
  sunset : Option ℚ := Option.none
  deriving DecidableEq

/-- interface RouteStep from apiUtils.ts. -/
structure RouteStep where
  location : ℚ × ℚ
  name : String
  distance : ℚ
  duration : ℚ
  deriving DecidableEq

/-- interface RouteData from apiUtils.ts: distance in km, duration in
seconds, geometry as a list of (lat, lon) pairs. -/
structure RouteData where
  distance : ℚ
  duration : ℚ
  steps : List RouteStep
  geometry : List (ℚ × ℚ)
  deriving DecidableEq

/-- interface Waypoint from apiUtils.ts; arrivalTime in epoch ms. -/
structure Waypoint where
  lat : ℚ
  lon : ℚ
  name : String
  arrivalTime : ℚ
  distanceFromStart : ℚ
  deriving DecidableEq

/-- The step-name search inside calculateWaypoints: walk the steps in
order accumulating durations and take the name of the first step whose
cumulative duration reaches targetTime; an empty name (JS falsy) and a
missing step both give the placeholder "En route". -/
def findStepName (steps : List RouteStep) (accumulated targetTime : ℚ) : String :=
  match steps with
  | [] => "En route"
  | step :: rest =>
    if accumulated + step.duration ≥ targetTime then
      if step.name = "" then "En route" else step.name
    else findStepName rest (accumulated + step.duration) targetTime

/-- The destination waypoint pushed by calculateWaypoints when an hourly
tick reaches or passes the route duration. -/
def destinationWaypoint (route : RouteData) (departureTime : ℚ)
    (toName : String) : Waypoint :=
  let lastPoint := route.geometry.getD (route.geometry.length - 1) (0, 0)
  { lat := lastPoint.1, lon := lastPoint.2, name := toName,
    arrivalTime := departureTime + route.duration * 1000,
    distanceFromStart := route.distance }

/-- The intermediate hourly waypoint pushed by calculateWaypoints:
the position is the geometry point at index Math.floor of
progress * (pointCount - 1), clamped by Math.min to the last index;
distanceFromStart is progress times the total distance. -/
def intermediateWaypoint (route : RouteData) (departureTime : ℚ)
    (hour : ℕ) : Waypoint :=
  let targetTime : ℚ := (hour : ℚ) * 3600
  let progress : ℚ := targetTime / route.duration
  let pointIndex : ℤ := ⌊progress * ((route.geometry.length : ℚ) - 1)⌋
  let point := route.geometry.getD
    (min pointIndex ((route.geometry.length : ℤ) - 1)).toNat (0, 0)
  { lat := point.1, lon := point.2,
    name := findStepName route.steps 0 targetTime,
    arrivalTime := departureTime + targetTime * 1000,
    distanceFromStart := progress * route.distance }

/-- The hourly for-loop of calculateWaypoints, with the number of
iterations left and the current hour: an hour strictly before the route
duration emits an intermediate waypoint, the first hour at or past the
duration emits the destination and stops (the break in the source loop). -/
def hourlyWaypoints (route : RouteData) (departureTime : ℚ) (toName : String) :
    ℕ → ℕ → List Waypoint
  | 0, _ => []
  | fuel + 1, hour =>
    if (hour : ℚ) * 3600 ≥ route.duration then
      [destinationWaypoint route departureTime toName]
    else
      intermediateWaypoint route departureTime hour ::
        hourlyWaypoints route departureTime toName fuel (hour + 1)

/-- calculateWaypoints from apiUtils.ts: the start point followed by the
hourly loop over hours 1 .. Math.ceil(duration / 3600). -/
def calculateWaypoints (route : RouteData) (departureTime : ℚ)
    (fromName toName : String) : List Waypoint :=
  let hourCount : ℤ := ⌈route.duration / 3600⌉
  let startPoint := route.geometry.getD 0 (0, 0)
  { lat := startPoint.1, lon := startPoint.2, name := fromName,
    arrivalTime := departureTime, distanceFromStart := 0 } ::
    hourlyWaypoints route departureTime toName hourCount.toNat 1

/-- The base-penalty step function of intensity (mm/h) inside
calculatePrecipitationPenalty (the first if-chain of the source). -/
def precipBasePenalty (intensity : ℚ) : ℤ :=
  if intensity ≤ 0 then 0
  else if intensity ≤ 1/2 then 3
  else if intensity ≤ 1 then 7
  else if intensity ≤ 2 then 12
  else if intensity ≤ 4 then 18
  else if intensity ≤ 8 then 28
  else 40

/-- The type multiplier inside calculatePrecipitationPenalty (the switch
on SMHI pcat values; the default infers snow/ice from temperature). -/
def precipTypeMultiplier (precipType temperature intensity : ℚ) : ℚ :=
  if precipType = 1 then 12/10
  else if precipType = 2 then 13/10
  else if precipType = 3 then 1
  else if precipType = 4 then 8/10
  else if precipType = 5 then 15/10
  else if precipType = 6 then 14/10
  else if temperature < 0 ∧ intensity > 0 then 12/10
  else 1

/-- calculatePrecipitationPenalty from drivingScore.ts: a zero base
penalty short-circuits to 0; otherwise the base is scaled by the type
multiplier, rounded, and clamped to 40. -/
def calculatePrecipitationPenalty (intensity precipType temperature : ℚ) : ℤ :=
  let basePenalty := precipBasePenalty intensity
  if basePenalty = 0 then 0
  else min 40 (jsRound ((basePenalty : ℚ) *
    precipTypeMultiplier precipType temperature intensity))

/-- calculateVisibilityPenalty from drivingScore.ts (visibility in km). -/
def calculateVisibilityPenalty (visibility : ℚ) : ℤ :=
  if visibility ≥ 10 then 0
  else if visibility ≥ 5 then 5
  else if visibility ≥ 2 then 10
  else if visibility ≥ 1 then 15
  else if visibility ≥ 1/2 then 20
  else 25

/-- calculateWindPenalty from drivingScore.ts (wind speed in m/s). -/
def calculateWindPenalty (windSpeed : ℚ) : ℤ :=
  if windSpeed < 5 then 0
  else if windSpeed < 10 then 5
  else if windSpeed < 15 then 10
  else if windSpeed < 20 then 15
  else 20

/-- calculateSurfaceRiskPenalty from drivingScore.ts. -/
def calculateSurfaceRiskPenalty (temperature precipitationIntensity : ℚ) : ℤ :=
  if precipitationIntensity ≤ 0 then
    if temperature < -10 then 5
    else if temperature < 0 then 3
    else 0
  else if temperature > 5 then 0
  else if temperature > 0 then 5
  else if temperature > -5 then 10
  else 15

/-- calculateDrivingScore from drivingScore.ts: 100 minus the summed
penalties, clamped below at 0. -/
def calculateDrivingScore (weather : WeatherData) : ℤ :=
  let precipPenalty := calculatePrecipitationPenalty
    weather.precipitationIntensity weather.precipitationType weather.temperature
  let visibilityPenalty := calculateVisibilityPenalty weather.visibility
  let windPenalty := calculateWindPenalty weather.windSpeed
  let surfacePenalty := calculateSurfaceRiskPenalty
    weather.temperature weather.precipitationIntensity
  max 0 (100 - (precipPenalty + visibilityPenalty + windPenalty + surfacePenalty))

/-- interface ScoreBreakdown from drivingScore.ts. -/
structure ScoreBreakdown where
  precipitation : ℤ
  visibility : ℤ
  wind : ℤ
  surfaceRisk : ℤ
  total : ℤ
  deriving DecidableEq

/-- getScoreBreakdown from drivingScore.ts. -/
def getScoreBreakdown (weather : WeatherData) : ScoreBreakdown :=
  let precipitation := calculatePrecipitationPenalty
    weather.precipitationIntensity weather.precipitationType weather.temperature
  let visibility := calculateVisibilityPenalty weather.visibility
  let wind := calculateWindPenalty weather.windSpeed
  let surfaceRisk := calculateSurfaceRiskPenalty
    weather.temperature weather.precipitationIntensity
  { precipitation := precipitation, visibility := visibility, wind := wind,
    surfaceRisk := surfaceRisk,
    total := precipitation + visibility + wind + surfaceRisk }

/-- calculateTripAverageScore from drivingScore.ts: the rounded mean
driving score over the non-null observations, or null when there are
none. -/
def calculateTripAverageScore (weatherData : List (Option WeatherData)) :
    Option ℤ :=
  let scores : List ℤ :=
    weatherData.filterMap (fun ow => ow.map calculateDrivingScore)
  if scores.length = 0 then Option.none
  else some (jsRound ((scores.sum : ℚ) / (scores.length : ℚ)))

/-- type ConditionSeverity in WeatherSummary.tsx. -/
inductive ConditionSeverity
  | none
  | caution
  | severe
  deriving DecidableEq

/-- getConditionSeverity from WeatherSummary.tsx: the discrete per-point
severity classification. -/
def getConditionSeverity (weather : WeatherData) : ConditionSeverity :=
  if weather.precipitationIntensity > 4 ∨ weather.visibility < 3 ∨
      weather.windSpeed > 20 ∨
      (weather.weatherSymbol ≥ 20 ∧ weather.weatherSymbol ≤ 27) then
    .severe
  else if weather.precipitationIntensity > 2 ∨ weather.visibility < 5 ∨
      weather.windSpeed > 15 ∨
      (weather.weatherSymbol ≥ 10 ∧ weather.weatherSymbol ≤ 19) then
    .caution
  else .none

/-- A stored observation that getConditionSeverity classifies severe
(nulls are not classified). -/
def isSeverePoint (ow : Option WeatherData) : Bool :=
  match ow with
  | Option.none => false
  | some w => decide (getConditionSeverity w = .severe)

/-- A stored observation that getConditionSeverity classifies caution
(nulls are not classified). -/
def isCautionPoint (ow : Option WeatherData) : Bool :=
  match ow with
  | Option.none => false
  | some w => decide (getConditionSeverity w = .caution)

/-- type SeverityLevel in WeatherSummary.tsx. -/
inductive SeverityLevel
  | good
  | caution
  | warning
  deriving DecidableEq

/-- interface TripAssessment in WeatherSummary.tsx. -/
structure TripAssessment where
  severity : SeverityLevel
  isLongTrip : Bool
  hasMixedConditions : Bool
  warningCount : ℕ
  cautionCount : ℕ
  totalPoints : ℕ
  deriving DecidableEq

/-- The mutable counters of the forEach loop in assessTrip. -/
structure TripAccum where
  warningCount : ℕ
  cautionCount : ℕ
  totalPoints : ℕ
  hasPrecipitation : Bool
  hasClearWeather : Bool
  deriving DecidableEq

/-- One iteration of the forEach loop in assessTrip: a null observation
is skipped; otherwise totalPoints is incremented, precipitation/clear
flags are updated, and the point is counted as warning
(dangerous precipitation, visibility < 3 or wind > 20) or else as
caution (moderate precipitation, visibility < 5 or wind > 15). -/
def assessPoint (acc : TripAccum) (ow : Option WeatherData) : TripAccum :=
  match ow with
  | Option.none => acc
  | some w =>
    let acc1 : TripAccum := { acc with totalPoints := acc.totalPoints + 1 }
    let acc2 : TripAccum :=
      if (w.precipitationIntensity > 4 ∨
            (w.weatherSymbol ≥ 20 ∧ w.weatherSymbol ≤ 27)) ∨
          (w.precipitationIntensity > 2 ∨
            (w.weatherSymbol ≥ 10 ∧ w.weatherSymbol ≤ 19)) ∨
          (w.precipitationIntensity > 1/2 ∨
            (w.weatherSymbol ≥ 8 ∧ w.weatherSymbol < 10)) then
        { acc1 with hasPrecipitation := true }
      else acc1
    let acc3 : TripAccum :=
      if w.precipitationIntensity < 1/2 ∧ w.weatherSymbol < 8 then
        { acc2 with hasClearWeather := true }
      else acc2
    if (w.precipitationIntensity > 4 ∨
          (w.weatherSymbol ≥ 20 ∧ w.weatherSymbol ≤ 27)) ∨
        w.visibility < 3 ∨ w.windSpeed > 20 then
      { acc3 with warningCount := acc3.warningCount + 1 }
    else if (w.precipitationIntensity > 2 ∨
          (w.weatherSymbol ≥ 10 ∧ w.weatherSymbol ≤ 19)) ∨
        w.visibility < 5 ∨ w.windSpeed > 15 then
      { acc3 with cautionCount := acc3.cautionCount + 1 }
    else acc3

/-- assessTrip from WeatherSummary.tsx.  The weather map is a function
from waypoint index to the stored observation; a Map miss and a stored
null both give Option.none, matching the falsy check in the source. -/
def assessTrip (waypoints : List Waypoint)
    (weatherData : ℕ → Option WeatherData) : TripAssessment :=
  let acc := ((List.range waypoints.length).map weatherData).foldl assessPoint
    ⟨0, 0, 0, false, false⟩
  let tripDurationMs : ℚ :=
    if 2 ≤ waypoints.length then
      (waypoints.getD (waypoints.length - 1) ⟨0, 0, "", 0, 0⟩).arrivalTime -
        (waypoints.getD 0 ⟨0, 0, "", 0, 0⟩).arrivalTime
    else 0
  let tripDurationHours := tripDurationMs / (1000 * 60 * 60)
  let severity : SeverityLevel :=
    if 0 < acc.warningCount then
      if (acc.warningCount : ℚ) ≥ (acc.totalPoints : ℚ) * (3/10) then .warning
      else .caution
    else if 0 < acc.cautionCount then
      if (acc.cautionCount : ℚ) ≥ (acc.totalPoints : ℚ) * (4/10) then .caution
      else .good
    else .good
  { severity := severity,
    isLongTrip := decide (tripDurationHours > 3),
    hasMixedConditions := acc.hasPrecipitation && acc.hasClearWeather,
    warningCount := acc.warningCount,
    cautionCount := acc.cautionCount,
    totalPoints := acc.totalPoints }

/-- The three possible wait recommendations of getWaitMessage and
get3hWaitMessage in WeatherSummary.tsx (the produced strings differ only
in wording between the 1h and 3h variants). -/
inductive WaitDirection
  | improves
  | worsens
  | noChange
  deriving DecidableEq

/-- severityScore inside getWaitMessage / get3hWaitMessage. -/
def severityScore : SeverityLevel → ℕ
  | .good => 0
  | .caution => 1
  | .warning => 2

/-- The decision logic shared by getWaitMessage and get3hWaitMessage:
compare rounded average trip scores when both are defined, otherwise fall
back to comparing the discrete assessment severities. -/
def getWaitDirection (currentAssessment offsetAssessment : TripAssessment)
    (currentWeatherData offsetWeatherData : List (Option WeatherData)) :
    WaitDirection :=
  let currentScore := calculateTripAverageScore currentWeatherData
  let offsetScore := calculateTripAverageScore offsetWeatherData
  match currentScore, offsetScore with
  | some cs, some os =>
    if os - cs ≥ 5 then .improves
    else if os - cs ≤ -5 then .worsens
    else .noChange
  | _, _ =>
    if severityScore offsetAssessment.severity <
        severityScore currentAssessment.severity then .improves
    else if severityScore offsetAssessment.severity >
        severityScore currentAssessment.severity then .worsens
    else .noChange

/-- mapSMHIWeatherSymbol from apiUtils.ts (SMHI Wsymb2 codes to the
internal symbol scale). -/
def mapSMHIWeatherSymbol (code : ℚ) : ℤ :=
  if code ≤ 2 then 1
  else if code ≤ 4 then 2
  else if code ≤ 6 then 3
  else if code = 7 then 4
  else if code ≤ 10 then 5
  else if code ≤ 14 then 6
  else if code ≤ 17 then 8
  else if code ≤ 20 then 6
  else if code ≤ 27 then 9
  else 1

/-- mapWeatherCodeToSymbol from apiUtils.ts (Open-Meteo WMO codes to the
internal symbol scale). -/
def mapWeatherCodeToSymbol (code : ℚ) : ℤ :=
  if code = 0 then 1
  else if code = 1 ∨ code = 2 then 2
  else if code = 3 then 3
  else if code ≥ 45 ∧ code ≤ 48 then 4
  else if code ≥ 51 ∧ code ≤ 55 then 5
  else if code ≥ 61 ∧ code ≤ 65 then 6
  else if code ≥ 80 ∧ code ≤ 82 then 7
  else if code ≥ 71 ∧ code ≤ 77 then 8
  else if code ≥ 95 ∧ code ≤ 99 then 9
  else 1

/-- A concrete 1.5-hour, 150 km route (the scenario of the waypoint-count
claim). -/
def exampleRoute : RouteData :=
  { distance := 150, duration := 5400, steps := [],
    geometry := [(10, 20), (11, 21), (12, 22), (13, 23)] }

/-- A concrete 2-hour route whose hour-1 tick falls exactly halfway
between two geometry indices, separating floor from round. -/
def halfwayRoute : RouteData :=
  { distance := 3, duration := 7200, steps := [],
    geometry := [(0, 0), (0, 1), (0, 2), (0, 3)] }

/-- A clear-weather observation scoring 100. -/
def clearObservation : WeatherData :=
  { temperature := 10, precipitationType := 0, precipitationIntensity := 0,
    windSpeed := 0, visibility := 50, weatherSymbol := 1 }

/-- The snowy scenario observation scoring 31. -/
def snowObservation : WeatherData :=
  { temperature := -6, precipitationType := 1, precipitationIntensity := 5,
    windSpeed := 12, visibility := 2, weatherSymbol := 8 }

/-- Evaluation helper for jsRound on concrete rationals. -/
theorem jsRound_eq (x : ℚ) (n : ℤ) (h₁ : (n : ℚ) ≤ x + 1/2)
    (h₂ : x + 1/2 < (n : ℚ) + 1) : jsRound x = n := by
  rw [jsRound]
  exact Int.floor_eq_iff.mpr ⟨by exact_mod_cast h₁, by exact_mod_cast h₂⟩

/-- Evaluation helper for Int.floor on concrete rationals. -/
theorem ratFloor_eq (x : ℚ) (n : ℤ) (h₁ : (n : ℚ) ≤ x) (h₂ : x < (n : ℚ) + 1) :
    ⌊x⌋ = n :=
  Int.floor_eq_iff.mpr ⟨by exact_mod_cast h₁, by exact_mod_cast h₂⟩

/-- Evaluation helper for Int.ceil on concrete rationals. -/
theorem ratCeil_eq (x : ℚ) (n : ℤ) (h₁ : (n : ℚ) - 1 < x) (h₂ : x ≤ (n : ℚ)) :
    ⌈x⌉ = n :=
  Int.ceil_eq_iff.mpr ⟨by exact_mod_cast h₁, by exact_mod_cast h₂⟩

/-- C1: the observation with temperature −6 °C, precipitation intensity
5 mm/h, type Snow (pcat 1), wind 12 m/s and visibility 2 km gets
precipitation penalty 34 (base 28 × 1.2 = 33.6, rounded to 34),
visibility penalty 10, wind penalty 10, surface-risk penalty 15, total
penalty 69, and driving score 31. -/
theorem scenario_snow_minus6_breakdown :
    getScoreBreakdown
        { temperature := -6, precipitationType := 1,
          precipitationIntensity := 5, windSpeed := 12, visibility := 2,
          weatherSymbol := 8 } =
      { precipitation := 34, visibility := 10, wind := 10, surfaceRisk := 15,
        total := 69 } ∧
    calculateDrivingScore
        { temperature := -6, precipitationType := 1,
          precipitationIntensity := 5, windSpeed := 12, visibility := 2,
          weatherSymbol := 8 } = 31 := by
  have h : jsRound ((168 : ℚ)/5) = 34 := jsRound_eq _ _ (by norm_num) (by norm_num)
  constructor <;>
    norm_num [getScoreBreakdown, calculateDrivingScore,
      calculatePrecipitationPenalty, precipBasePenalty, precipTypeMultiplier,
      calculateVisibilityPenalty, calculateWindPenalty,
      calculateSurfaceRiskPenalty, h]

/-- Indexing the hourly loop: while the queried hour stays strictly
before the route duration, entry k of the loop started at a given hour is
the intermediate waypoint for hour + k. -/
theorem hourlyWaypoints_getElem (route : RouteData) (departureTime : ℚ)
    (toName : String) :
    ∀ fuel hour k, k < fuel →
      ((hour + k : ℕ) : ℚ) * 3600 < route.duration →
      (hourlyWaypoints route departureTime toName fuel hour)[k]? =
        some (intermediateWaypoint route departureTime (hour + k)) := by
  intro fuel
  induction fuel with
  | zero => intro hour k hk _; exact absurd hk (Nat.not_lt_zero k)
  | succ f ih =>
    intro hour k hk hlt
    have hhour : (hour : ℚ) * 3600 < route.duration := by
      refine lt_of_le_of_lt ?_ hlt
      have hle : (hour : ℚ) ≤ ((hour + k : ℕ) : ℚ) := by
        exact_mod_cast Nat.le_add_right hour k
      exact mul_le_mul_of_nonneg_right hle (by norm_num)
    simp only [hourlyWaypoints]
    rw [if_neg (not_le.mpr hhour)]
    cases k with
    | zero => simp
    | succ j =>
      rw [List.getElem?_cons_succ]
      have heq : hour + (j + 1) = hour + 1 + j := by omega
      rw [heq] at hlt ⊢
      exact ih (hour + 1) j (by omega) hlt

/-- When the loop hour equals the ceil of the duration in hours, the
hourly tick has reached or passed the route duration. -/
theorem ceilHour_reached (route : RouteData) {hour : ℕ}
    (hhc : (hour : ℤ) = ⌈route.duration / 3600⌉) :
    (hour : ℚ) * 3600 ≥ route.duration := by
  have hle : route.duration / 3600 ≤ ((hour : ℤ) : ℚ) := by
    rw [hhc]; exact Int.le_ceil _
  have hle2 : route.duration / 3600 ≤ (hour : ℚ) := by exact_mod_cast hle
  linarith [(div_le_iff (by norm_num : (0:ℚ) < 3600)).mp hle2]

/-- A loop hour strictly below the ceil of the duration in hours is
strictly before the route duration. -/
theorem ceilHour_not_reached (route : RouteData) {hour : ℕ}
    (hub : (hour : ℤ) ≤ ⌈route.duration / 3600⌉ - 1) :
    (hour : ℚ) * 3600 < route.duration := by
  have h2 : ((hour : ℤ) : ℚ) ≤ (⌈route.duration / 3600⌉ : ℚ) - 1 := by
    exact_mod_cast hub
  have h3 : (⌈route.duration / 3600⌉ : ℚ) < route.duration / 3600 + 1 :=
    Int.ceil_lt_add_one _
  have h4 : (hour : ℚ) < route.duration / 3600 := by
    have hcast : ((hour : ℤ) : ℚ) = (hour : ℚ) := by push_cast; ring
    linarith [hcast ▸ h2]
  linarith [(lt_div_iff (by norm_num : (0:ℚ) < 3600)).mp h4]

/-- The hourly loop started at a given hour, with exactly the iterations
left to reach the ceil hour, produces one waypoint per iteration. -/
theorem hourlyWaypoints_length (route : RouteData) (departureTime : ℚ)
    (toName : String) :
    ∀ (fuel hour : ℕ), 1 ≤ hour →
      (hour : ℤ) + (fuel : ℤ) = ⌈route.duration / 3600⌉ + 1 →
      (hourlyWaypoints route departureTime toName fuel hour).length = fuel := by
  intro fuel
  induction fuel with
  | zero => intro hour _ _; rfl
  | succ f ih =>
    intro hour h1 htie
    rcases Nat.eq_zero_or_pos f with hf | hf
    · subst hf
      have hhc : (hour : ℤ) = ⌈route.duration / 3600⌉ := by push_cast at htie; omega
      simp only [hourlyWaypoints]
      rw [if_pos (ceilHour_reached route hhc)]
      rfl
    · have hub : (hour : ℤ) ≤ ⌈route.duration / 3600⌉ - 1 := by
        push_cast at htie; omega
      have hlt := ceilHour_not_reached route hub
      simp only [hourlyWaypoints]
      rw [if_neg (not_le.mpr hlt), List.length_cons,
        ih (hour + 1) (by omega) (by push_cast at htie ⊢; omega)]

/-- Prepending to a list does not change a defined last element. -/
theorem getLast_cons_eq {α : Type} (a x : α) {l : List α}
    (h : l.getLast? = some x) : (a :: l).getLast? = some x := by
  cases l with
  | nil => simp at h
  | cons b t => rw [List.getLast?_cons_cons]; exact h

/-- The hourly loop with exactly the iterations left to reach the ceil
hour always ends with the destination waypoint. -/
theorem hourlyWaypoints_getLast (route : RouteData) (departureTime : ℚ)
    (toName : String) :
    ∀ (fuel hour : ℕ), 1 ≤ hour → 1 ≤ fuel →
      (hour : ℤ) + (fuel : ℤ) = ⌈route.duration / 3600⌉ + 1 →
      (hourlyWaypoints route departureTime toName fuel hour).getLast? =
        some (destinationWaypoint route departureTime toName) := by
  intro fuel
  induction fuel with
  | zero => intro hour _ hf _; exact absurd hf (by norm_num)
  | succ f ih =>
    intro hour h1 _ htie
    rcases Nat.eq_zero_or_pos f with hf | hf
    · subst hf
      have hhc : (hour : ℤ) = ⌈route.duration / 3600⌉ := by push_cast at htie; omega
      simp only [hourlyWaypoints]
      rw [if_pos (ceilHour_reached route hhc)]
      rfl
    · have hub : (hour : ℤ) ≤ ⌈route.duration / 3600⌉ - 1 := by
        push_cast at htie; omega
      have hlt := ceilHour_not_reached route hub
      simp only [hourlyWaypoints]
      rw [if_neg (not_le.mpr hlt)]
      exact getLast_cons_eq _ _
        (ih (hour + 1) (by omega) (by omega) (by push_cast at htie ⊢; omega))

/-- C3: for every route with non-empty geometry and positive total
duration, calculateWaypoints returns exactly
ceil(totalDurationSeconds/3600) + 1 waypoints. -/
theorem calculateWaypoints_count (route : RouteData) (departureTime : ℚ)
    (fromName toName : String) (hgeom : route.geometry ≠ [])
    (hdur : 0 < route.duration) :
    (calculateWaypoints route departureTime fromName toName).length =
      (⌈route.duration / 3600⌉).toNat + 1 := by
  have hhc : 1 ≤ ⌈route.duration / 3600⌉ :=
    Int.ceil_pos.mpr (div_pos hdur (by norm_num))
  simp only [calculateWaypoints, List.length_cons]
  rw [hourlyWaypoints_length route departureTime toName _ 1 le_rfl]
  push_cast [Int.toNat_of_nonneg (by omega : (0:ℤ) ≤ ⌈route.duration / 3600⌉)]
  omega

/-- C3 witness: the 1.5-hour, 150 km example route yields
ceil(5400/3600) + 1 = 3 waypoints: the start at t = 0 and 0 km, the
intermediate at hour 1, and the destination at t = 5400 s and 150 km. -/
theorem calculateWaypoints_count_witness :
    exampleRoute.geometry ≠ [] ∧ 0 < exampleRoute.duration ∧
    (calculateWaypoints exampleRoute 0 "Start" "End").length =
      (⌈exampleRoute.duration / 3600⌉).toNat + 1 ∧
    calculateWaypoints exampleRoute 0 "Start" "End" =
      [⟨10, 20, "Start", 0, 0⟩,
       ⟨12, 22, "En route", 3600000, 100⟩,
       ⟨13, 23, "End", 5400000, 150⟩] := by
  refine ⟨by simp [exampleRoute], by norm_num [exampleRoute],
    calculateWaypoints_count exampleRoute 0 "Start" "End"
      (by simp [exampleRoute]) (by norm_num [exampleRoute]), ?_⟩
  have hceil : (⌈(3 : ℚ)/2⌉ : ℤ) = 2 := ratCeil_eq _ _ (by norm_num) (by norm_num)
  have hfloor : (⌊(2 : ℚ)/3 * 3⌋ : ℤ) = 2 := ratFloor_eq _ _ (by norm_num) (by norm_num)
  norm_num [calculateWaypoints, hourlyWaypoints, intermediateWaypoint,
    destinationWaypoint, findStepName, exampleRoute, hceil, hfloor,
    Int.toNat_ofNat]
  constructor <;> rfl

/-- C2 counterexample: on the two-hour halfway route the hour-1 waypoint
sits at geometry index Math.floor(0.5 * 3) = 1 (longitude 1), not at the
index Math.round(0.5 * 3) = 2 (longitude 2) demanded by the claim. -/
theorem intermediate_round_counterexample :
    ((calculateWaypoints halfwayRoute 0 "A" "B").getD 1 ⟨0, 0, "", 0, 0⟩).lon ≠
      (halfwayRoute.geometry.getD
        (jsRound (((1 : ℚ) * 3600 / halfwayRoute.duration) *
          ((halfwayRoute.geometry.length : ℚ) - 1))).toNat (0, 0)).2 := by
  have hceil : (⌈(2 : ℚ)⌉ : ℤ) = 2 := ratCeil_eq _ _ (by norm_num) (by norm_num)
  have hfloor : (⌊(3 : ℚ)/2⌋ : ℤ) = 1 := ratFloor_eq _ _ (by norm_num) (by norm_num)
  have hjs : jsRound ((3 : ℚ)/2) = 2 := jsRound_eq _ _ (by norm_num) (by norm_num)
  norm_num [calculateWaypoints, hourlyWaypoints, intermediateWaypoint,
    destinationWaypoint, findStepName, halfwayRoute, hceil, hfloor, hjs,
    Int.toNat_ofNat]
  decide

/-- C2 (amended): for every route with non-empty geometry and every
intermediate hour h with h*3600 < totalDurationSeconds, the waypoint at
list position h sits at the geometry point whose index is
Math.floor(progress * (pointCount - 1)) clamped to the last valid index
(not Math.round as claimed), with distanceFromStart =
progress * totalDistanceKm, where progress = h*3600/totalDurationSeconds. -/
theorem calculateWaypoints_intermediate (route : RouteData)
    (departureTime : ℚ) (fromName toName : String) (hour : ℕ)
    (h1 : 1 ≤ hour) (hlt : (hour : ℚ) * 3600 < route.duration) :
    ∃ w, (calculateWaypoints route departureTime fromName toName)[hour]? =
        some w ∧
      (w.lat, w.lon) = route.geometry.getD
        (min ⌊((hour : ℚ) * 3600 / route.duration) *
            ((route.geometry.length : ℚ) - 1)⌋
          ((route.geometry.length : ℤ) - 1)).toNat (0, 0) ∧
      w.distanceFromStart =
        ((hour : ℚ) * 3600 / route.duration) * route.distance ∧
      w.arrivalTime = departureTime + (hour : ℚ) * 3600 * 1000 := by
  refine ⟨intermediateWaypoint route departureTime hour, ?_, rfl, rfl, rfl⟩
  have hhc : (hour : ℤ) < ⌈route.duration / 3600⌉ := by
    refine Int.lt_ceil.mpr ?_
    rw [lt_div_iff₀ (by norm_num : (0:ℚ) < 3600)]
    exact_mod_cast hlt
  obtain ⟨j, rfl⟩ : ∃ j, hour = j + 1 := ⟨hour - 1, by omega⟩
  simp only [calculateWaypoints]
  rw [List.getElem?_cons_succ]
  have heq : (1 : ℕ) + j = j + 1 := by omega
  have happ := hourlyWaypoints_getElem route departureTime toName
    (⌈route.duration / 3600⌉).toNat 1 j (by omega) (by rw [heq]; exact hlt)
  rw [heq] at happ
  exact happ

/-- C2 witness (for the amended claim): the hour-1 waypoint of the
halfway route is at floor index 1, i.e. longitude 1, half the distance. -/
theorem calculateWaypoints_intermediate_witness :
    (1 : ℚ) * 3600 < halfwayRoute.duration ∧
    ∃ w, (calculateWaypoints halfwayRoute 0 "A" "B")[1]? = some w ∧
      (w.lat, w.lon) = halfwayRoute.geometry.getD
        (min ⌊((1 : ℚ) * 3600 / halfwayRoute.duration) *
            ((halfwayRoute.geometry.length : ℚ) - 1)⌋
          ((halfwayRoute.geometry.length : ℤ) - 1)).toNat (0, 0) ∧
      w.distanceFromStart =
        ((1 : ℚ) * 3600 / halfwayRoute.duration) * halfwayRoute.distance ∧
      w.arrivalTime = 0 + (1 : ℚ) * 3600 * 1000 := by
  constructor
  · norm_num [halfwayRoute]
  · exact_mod_cast calculateWaypoints_intermediate halfwayRoute 0 "A" "B" 1
      le_rfl (by norm_num [halfwayRoute])

/-- The hourly loop only moves forward: starting from any waypoint whose
time and distance are below the loop's next emission, the produced list
is non-decreasing in arrivalTime and distanceFromStart. -/
theorem hourlyWaypoints_chain (route : RouteData) (departureTime : ℚ)
    (toName : String) (hdur : 0 < route.duration)
    (hdist : 0 ≤ route.distance) :
    ∀ (fuel hour : ℕ) (w : Waypoint), 1 ≤ hour →
      w.arrivalTime ≤ departureTime + (hour : ℚ) * 3600 * 1000 →
      w.arrivalTime ≤ departureTime + route.duration * 1000 →
      w.distanceFromStart ≤
        ((hour : ℚ) * 3600 / route.duration) * route.distance →
      w.distanceFromStart ≤ route.distance →
      List.Chain' (fun a b => a.arrivalTime ≤ b.arrivalTime ∧
          a.distanceFromStart ≤ b.distanceFromStart)
        (w :: hourlyWaypoints route departureTime toName fuel hour) := by
  intro fuel
  induction fuel with
  | zero => intro hour w _ _ _ _ _; simp [hourlyWaypoints]
  | succ f ih =>
    intro hour w h1 htw htd hdw hdd
    by_cases hge : (hour : ℚ) * 3600 ≥ route.duration
    · simp only [hourlyWaypoints, if_pos hge]
      exact List.chain'_cons.mpr ⟨⟨htd, hdd⟩, List.chain'_singleton _⟩
    · have hlt : (hour : ℚ) * 3600 < route.duration := not_le.mp hge
      simp only [hourlyWaypoints, if_neg hge]
      refine List.chain'_cons.mpr ⟨⟨htw, hdw⟩, ?_⟩
      refine ih (hour + 1) (intermediateWaypoint route departureTime hour)
        (by omega) ?_ ?_ ?_ ?_
      · show departureTime + (hour : ℚ) * 3600 * 1000 ≤
          departureTime + ((hour + 1 : ℕ) : ℚ) * 3600 * 1000
        push_cast
        have : (hour : ℚ) ≤ (hour : ℚ) + 1 := by linarith
        nlinarith
      · show departureTime + (hour : ℚ) * 3600 * 1000 ≤
          departureTime + route.duration * 1000
        linarith
      · show ((hour : ℚ) * 3600 / route.duration) * route.distance ≤
          (((hour + 1 : ℕ) : ℚ) * 3600 / route.duration) * route.distance
        push_cast
        refine mul_le_mul_of_nonneg_right ?_ hdist
        refine (div_le_div_right hdur).mpr ?_
        linarith
      · show ((hour : ℚ) * 3600 / route.duration) * route.distance ≤
          route.distance
        calc ((hour : ℚ) * 3600 / route.duration) * route.distance
            ≤ 1 * route.distance := by
              refine mul_le_mul_of_nonneg_right ?_ hdist
              exact le_of_lt ((div_lt_one hdur).mpr hlt)
          _ = route.distance := one_mul _

/-- C4: for every route with non-empty geometry, positive total duration
and non-negative total distance, the waypoint sequence is non-decreasing
in arrivalTime and distanceFromStart; the first waypoint is at the
departure time with distance 0, and the last waypoint is at
departureTime + totalDurationSeconds with the route's full distance. -/
theorem calculateWaypoints_monotone (route : RouteData) (departureTime : ℚ)
    (fromName toName : String) (hgeom : route.geometry ≠ [])
    (hdur : 0 < route.duration) (hdist : 0 ≤ route.distance) :
    List.Chain' (fun a b => a.arrivalTime ≤ b.arrivalTime ∧
        a.distanceFromStart ≤ b.distanceFromStart)
      (calculateWaypoints route departureTime fromName toName) ∧
    (∃ w, (calculateWaypoints route departureTime fromName toName).head? =
        some w ∧ w.arrivalTime = departureTime ∧ w.distanceFromStart = 0) ∧
    (∃ w, (calculateWaypoints route departureTime fromName toName).getLast? =
        some w ∧ w.arrivalTime = departureTime + route.duration * 1000 ∧
      w.distanceFromStart = route.distance) := by
  have hhc : 1 ≤ ⌈route.duration / 3600⌉ :=
    Int.ceil_pos.mpr (div_pos hdur (by norm_num))
  refine ⟨?_, ⟨_, rfl, rfl, rfl⟩, ?_⟩
  · simp only [calculateWaypoints]
    refine hourlyWaypoints_chain route departureTime toName hdur hdist _ 1 _
      le_rfl ?_ ?_ ?_ ?_
    · show departureTime ≤ departureTime + (1 : ℚ) * 3600 * 1000
      linarith
    · show departureTime ≤ departureTime + route.duration * 1000
      linarith
    · show (0 : ℚ) ≤ ((1 : ℚ) * 3600 / route.duration) * route.distance
      positivity
    · exact hdist
  · refine ⟨destinationWaypoint route departureTime toName, ?_, rfl, rfl⟩
    simp only [calculateWaypoints]
    refine getLast_cons_eq _ _
      (hourlyWaypoints_getLast route departureTime toName _ 1 le_rfl ?_ ?_)
    · omega
    · push_cast [Int.toNat_of_nonneg (by omega : (0:ℤ) ≤ ⌈route.duration / 3600⌉)]
      omega

/-- C4 witness: the example route satisfies the hypotheses, and its
concrete waypoint list is monotone with the stated endpoints. -/
theorem calculateWaypoints_monotone_witness :
    exampleRoute.geometry ≠ [] ∧ 0 < exampleRoute.duration ∧
    0 ≤ exampleRoute.distance ∧
    (List.Chain' (fun a b => a.arrivalTime ≤ b.arrivalTime ∧
        a.distanceFromStart ≤ b.distanceFromStart)
      (calculateWaypoints exampleRoute 0 "Start" "End") ∧
    (∃ w, (calculateWaypoints exampleRoute 0 "Start" "End").head? =
        some w ∧ w.arrivalTime = 0 ∧ w.distanceFromStart = 0) ∧
    (∃ w, (calculateWaypoints exampleRoute 0 "Start" "End").getLast? =
        some w ∧ w.arrivalTime = 0 + exampleRoute.duration * 1000 ∧
      w.distanceFromStart = exampleRoute.distance)) :=
  ⟨by simp [exampleRoute], by norm_num [exampleRoute],
    by norm_num [exampleRoute],
    calculateWaypoints_monotone exampleRoute 0 "Start" "End"
      (by simp [exampleRoute]) (by norm_num [exampleRoute])
      (by norm_num [exampleRoute])⟩

/-- Characterization of the severe branch of getConditionSeverity. -/
theorem severe_iff (w : WeatherData) :
    getConditionSeverity w = .severe ↔
      (w.precipitationIntensity > 4 ∨ w.visibility < 3 ∨ w.windSpeed > 20 ∨
        (w.weatherSymbol ≥ 20 ∧ w.weatherSymbol ≤ 27)) := by
  unfold getConditionSeverity
  split_ifs with h1 h2 <;> simp_all

/-- Characterization of the caution branch of getConditionSeverity. -/
theorem caution_iff (w : WeatherData) :
    getConditionSeverity w = .caution ↔
      (¬(w.precipitationIntensity > 4 ∨ w.visibility < 3 ∨ w.windSpeed > 20 ∨
          (w.weatherSymbol ≥ 20 ∧ w.weatherSymbol ≤ 27)) ∧
        (w.precipitationIntensity > 2 ∨ w.visibility < 5 ∨ w.windSpeed > 15 ∨
          (w.weatherSymbol ≥ 10 ∧ w.weatherSymbol ≤ 19))) := by
  unfold getConditionSeverity
  split_ifs with h1 h2 <;> simp_all

/-- Characterization of the none branch of getConditionSeverity. -/
theorem none_iff (w : WeatherData) :
    getConditionSeverity w = .none ↔
      (¬(w.precipitationIntensity > 4 ∨ w.visibility < 3 ∨ w.windSpeed > 20 ∨
          (w.weatherSymbol ≥ 20 ∧ w.weatherSymbol ≤ 27)) ∧
        ¬(w.precipitationIntensity > 2 ∨ w.visibility < 5 ∨ w.windSpeed > 15 ∨
          (w.weatherSymbol ≥ 10 ∧ w.weatherSymbol ≤ 19))) := by
  unfold getConditionSeverity
  split_ifs with h1 h2 <;> simp_all

/-- C5: the per-point classification is severe iff precipitation > 4 mm/h
or visibility < 3 km or wind > 20 m/s or symbol in [20,27]; otherwise
caution iff precipitation > 2 mm/h or visibility < 5 km or wind > 15 m/s
or symbol in [10,19]; otherwise none (good). -/
theorem getConditionSeverity_spec (w : WeatherData) :
    (getConditionSeverity w = .severe ↔
      (w.precipitationIntensity > 4 ∨ w.visibility < 3 ∨ w.windSpeed > 20 ∨
        (w.weatherSymbol ≥ 20 ∧ w.weatherSymbol ≤ 27))) ∧
    (getConditionSeverity w = .caution ↔
      (¬(w.precipitationIntensity > 4 ∨ w.visibility < 3 ∨ w.windSpeed > 20 ∨
          (w.weatherSymbol ≥ 20 ∧ w.weatherSymbol ≤ 27)) ∧
        (w.precipitationIntensity > 2 ∨ w.visibility < 5 ∨ w.windSpeed > 15 ∨
          (w.weatherSymbol ≥ 10 ∧ w.weatherSymbol ≤ 19)))) ∧
    (getConditionSeverity w = .none ↔
      (¬(w.precipitationIntensity > 4 ∨ w.visibility < 3 ∨ w.windSpeed > 20 ∨
          (w.weatherSymbol ≥ 20 ∧ w.weatherSymbol ≤ 27)) ∧
        ¬(w.precipitationIntensity > 2 ∨ w.visibility < 5 ∨ w.windSpeed > 15 ∨
          (w.weatherSymbol ≥ 10 ∧ w.weatherSymbol ≤ 19)))) :=
  ⟨severe_iff w, caution_iff w, none_iff w⟩

/-- isSeverePoint agrees with the warning condition tested in assessTrip. -/
theorem isSeverePoint_some (w : WeatherData) :
    isSeverePoint (some w) = true ↔
      ((w.precipitationIntensity > 4 ∨
          (w.weatherSymbol ≥ 20 ∧ w.weatherSymbol ≤ 27)) ∨
        w.visibility < 3 ∨ w.windSpeed > 20) := by
  simp only [isSeverePoint, decide_eq_true_eq, severe_iff]
  tauto

/-- isCautionPoint agrees with the caution condition tested in
assessTrip (the else-if of the warning condition). -/
theorem isCautionPoint_some (w : WeatherData) :
    isCautionPoint (some w) = true ↔
      (¬((w.precipitationIntensity > 4 ∨
            (w.weatherSymbol ≥ 20 ∧ w.weatherSymbol ≤ 27)) ∨
          w.visibility < 3 ∨ w.windSpeed > 20) ∧
        ((w.precipitationIntensity > 2 ∨
            (w.weatherSymbol ≥ 10 ∧ w.weatherSymbol ≤ 19)) ∨
          w.visibility < 5 ∨ w.windSpeed > 15)) := by
  simp only [isCautionPoint, decide_eq_true_eq, caution_iff]
  tauto

/-- One assessTrip loop iteration increments the three counters exactly
as the per-point classification dictates. -/
theorem assessPoint_counts (acc : TripAccum) (ow : Option WeatherData) :
    (assessPoint acc ow).warningCount =
      acc.warningCount + (if isSeverePoint ow then 1 else 0) ∧
    (assessPoint acc ow).cautionCount =
      acc.cautionCount + (if isCautionPoint ow then 1 else 0) ∧
    (assessPoint acc ow).totalPoints =
      acc.totalPoints + (if ow.isSome then 1 else 0) := by
  cases ow with
  | none => simp [assessPoint, isSeverePoint, isCautionPoint]
  | some w =>
    have hs := isSeverePoint_some w
    have hc := isCautionPoint_some w
    simp only [assessPoint, Option.isSome_some]
    split_ifs <;> simp_all

/-- Folding the assessTrip loop over a list of stored observations adds
the classification counts to the accumulator. -/
theorem foldl_assessPoint_counts (l : List (Option WeatherData)) :
    ∀ acc : TripAccum,
      (l.foldl assessPoint acc).warningCount =
        acc.warningCount + l.countP isSeverePoint ∧
      (l.foldl assessPoint acc).cautionCount =
        acc.cautionCount + l.countP isCautionPoint ∧
      (l.foldl assessPoint acc).totalPoints =
        acc.totalPoints + l.countP Option.isSome := by
  induction l with
  | nil => intro acc; simp
  | cons x t ih =>
    intro acc
    obtain ⟨h1, h2, h3⟩ := ih (assessPoint acc x)
    obtain ⟨g1, g2, g3⟩ := assessPoint_counts acc x
    refine ⟨?_, ?_, ?_⟩ <;>
      simp only [List.foldl_cons, List.countP_cons, h1, h2, h3, g1, g2, g3] <;>
      split_ifs <;> omega

/-- C6: assessTrip counts warning and caution points with the discrete
per-point severity scale, and its overall severity is warning iff
warningCount > 0 and warningCount ≥ 0.3·totalPoints; caution iff either
warningCount > 0 below that threshold, or warningCount = 0 and
cautionCount > 0 with cautionCount ≥ 0.4·totalPoints; good otherwise. -/
theorem assessTrip_severity_spec (waypoints : List Waypoint)
    (weatherData : ℕ → Option WeatherData) :
    ((assessTrip waypoints weatherData).warningCount =
      ((List.range waypoints.length).map weatherData).countP isSeverePoint) ∧
    ((assessTrip waypoints weatherData).cautionCount =
      ((List.range waypoints.length).map weatherData).countP isCautionPoint) ∧
    ((assessTrip waypoints weatherData).totalPoints =
      ((List.range waypoints.length).map weatherData).countP Option.isSome) ∧
    ((assessTrip waypoints weatherData).severity = .warning ↔
      (0 < (assessTrip waypoints weatherData).warningCount ∧
        ((assessTrip waypoints weatherData).warningCount : ℚ) ≥
          ((assessTrip waypoints weatherData).totalPoints : ℚ) * (3/10))) ∧
    ((assessTrip waypoints weatherData).severity = .caution ↔
      ((0 < (assessTrip waypoints weatherData).warningCount ∧
        ¬((assessTrip waypoints weatherData).warningCount : ℚ) ≥
          ((assessTrip waypoints weatherData).totalPoints : ℚ) * (3/10)) ∨
       ((assessTrip waypoints weatherData).warningCount = 0 ∧
        0 < (assessTrip waypoints weatherData).cautionCount ∧
        ((assessTrip waypoints weatherData).cautionCount : ℚ) ≥
          ((assessTrip waypoints weatherData).totalPoints : ℚ) * (4/10)))) ∧
    ((assessTrip waypoints weatherData).severity = .good ↔
      ((assessTrip waypoints weatherData).warningCount = 0 ∧
        ¬(0 < (assessTrip waypoints weatherData).cautionCount ∧
          ((assessTrip waypoints weatherData).cautionCount : ℚ) ≥
            ((assessTrip waypoints weatherData).totalPoints : ℚ) * (4/10)))) := by
  obtain ⟨h1, h2, h3⟩ := foldl_assessPoint_counts
    ((List.range waypoints.length).map weatherData) ⟨0, 0, 0, false, false⟩
  simp only [assessTrip]
  simp only [h1, h2, h3]
  split_ifs <;> simp_all [Nat.pos_iff_ne_zero]

/-- Folding the assessTrip loop over nulls leaves the counters alone. -/
theorem foldl_assessPoint_none (l : List (Option WeatherData))
    (h : ∀ x ∈ l, x = Option.none) :
    ∀ acc : TripAccum, l.foldl assessPoint acc = acc := by
  induction l with
  | nil => intro acc; rfl
  | cons x t ih =>
    intro acc
    rw [List.foldl_cons, h x (List.mem_cons_self x t)]
    exact ih (fun y hy => h y (List.mem_cons_of_mem x hy)) acc

/-- C9: with an all-null weather map, assessTrip returns severity good
and zero scored points (it is a total function, so it cannot throw), and
calculateTripAverageScore returns null rather than a numeric default. -/
theorem assessTrip_allNull (waypoints : List Waypoint)
    (weatherData : ℕ → Option WeatherData) (l : List (Option WeatherData))
    (hwd : ∀ i, weatherData i = Option.none)
    (hl : ∀ x ∈ l, x = Option.none) :
    (assessTrip waypoints weatherData).severity = .good ∧
    (assessTrip waypoints weatherData).totalPoints = 0 ∧
    calculateTripAverageScore l = Option.none := by
  have hfold := foldl_assessPoint_none
    ((List.range waypoints.length).map weatherData)
    (by intro x hx
        obtain ⟨i, _, rfl⟩ := List.mem_map.mp hx
        exact hwd i)
    ⟨0, 0, 0, false, false⟩
  have hnil : l.filterMap (fun ow => ow.map calculateDrivingScore) = [] := by
    rw [List.filterMap_eq_nil]
    intro a ha
    rw [hl a ha]
    rfl
  refine ⟨?_, ?_, ?_⟩
  · simp [assessTrip, hfold]
  · simp [assessTrip, hfold]
  · simp [calculateTripAverageScore, hnil]

/-- C9 witness: a two-waypoint trip whose weather map holds only nulls. -/
theorem assessTrip_allNull_witness :
    (assessTrip [⟨10, 20, "A", 0, 0⟩, ⟨11, 21, "B", 3600000, 50⟩]
      (fun _ => Option.none)).severity = .good ∧
    (assessTrip [⟨10, 20, "A", 0, 0⟩, ⟨11, 21, "B", 3600000, 50⟩]
      (fun _ => Option.none)).totalPoints = 0 ∧
    calculateTripAverageScore [Option.none, Option.none] = Option.none :=
  assessTrip_allNull _ _ _ (fun _ => rfl) (by intro x hx; simpa using hx)

/-- C7: when both trip averages are defined the comparison yields
improves iff candidate − baseline ≥ 5, worsens iff ≤ −5, and noChange
otherwise; when either average is undefined it falls back to comparing
the discrete severities (good < caution < warning) with the same
three-way outcome. -/
theorem getWaitDirection_spec
    (currentAssessment offsetAssessment : TripAssessment)
    (currentWeatherData offsetWeatherData : List (Option WeatherData)) :
    (∀ cs os : ℤ, calculateTripAverageScore currentWeatherData = some cs →
      calculateTripAverageScore offsetWeatherData = some os →
      ((getWaitDirection currentAssessment offsetAssessment
          currentWeatherData offsetWeatherData = .improves ↔ 5 ≤ os - cs) ∧
       (getWaitDirection currentAssessment offsetAssessment
          currentWeatherData offsetWeatherData = .worsens ↔ os - cs ≤ -5) ∧
       (getWaitDirection currentAssessment offsetAssessment
          currentWeatherData offsetWeatherData = .noChange ↔
          (-5 < os - cs ∧ os - cs < 5)))) ∧
    ((calculateTripAverageScore currentWeatherData = Option.none ∨
      calculateTripAverageScore offsetWeatherData = Option.none) →
      ((getWaitDirection currentAssessment offsetAssessment
          currentWeatherData offsetWeatherData = .improves ↔
          severityScore offsetAssessment.severity <
            severityScore currentAssessment.severity) ∧
       (getWaitDirection currentAssessment offsetAssessment
          currentWeatherData offsetWeatherData = .worsens ↔
          severityScore currentAssessment.severity <
            severityScore offsetAssessment.severity) ∧
       (getWaitDirection currentAssessment offsetAssessment
          currentWeatherData offsetWeatherData = .noChange ↔
          severityScore currentAssessment.severity =
            severityScore offsetAssessment.severity))) := by
  constructor
  · intro cs os hcs hos
    simp only [getWaitDirection, hcs, hos]
    split_ifs <;> simp_all <;> omega
  · intro hnone
    rcases hnone with h | h
    · simp only [getWaitDirection, h]
      split_ifs <;> simp_all <;> omega
    · rcases hcs : calculateTripAverageScore currentWeatherData with _ | cs <;>
        simp only [getWaitDirection, h, hcs] <;> split_ifs <;> simp_all <;> omega

/-- C7 witness: comparing a perfect-score baseline to a snowy candidate
(average 100 vs 31, difference −69 ≤ −5) reports worsens. -/
theorem getWaitDirection_spec_witness :
    calculateTripAverageScore [some clearObservation] = some 100 ∧
    calculateTripAverageScore [some snowObservation] = some 31 ∧
    getWaitDirection ⟨.good, false, false, 0, 0, 0⟩
      ⟨.good, false, false, 0, 0, 0⟩
      [some clearObservation] [some snowObservation] = .worsens := by
  have h100 : jsRound (100 : ℚ) = 100 := jsRound_eq _ _ (by norm_num) (by norm_num)
  have h31 : jsRound (31 : ℚ) = 31 := jsRound_eq _ _ (by norm_num) (by norm_num)
  have h34 : jsRound ((168 : ℚ)/5) = 34 := jsRound_eq _ _ (by norm_num) (by norm_num)
  have hc : calculateTripAverageScore [some clearObservation] = some 100 := by
    norm_num [calculateTripAverageScore, calculateDrivingScore,
      calculatePrecipitationPenalty, precipBasePenalty, precipTypeMultiplier,
      calculateVisibilityPenalty, calculateWindPenalty,
      calculateSurfaceRiskPenalty, clearObservation, List.filterMap_cons, h100]
  have ho : calculateTripAverageScore [some snowObservation] = some 31 := by
    norm_num [calculateTripAverageScore, calculateDrivingScore,
      calculatePrecipitationPenalty, precipBasePenalty, precipTypeMultiplier,
      calculateVisibilityPenalty, calculateWindPenalty,
      calculateSurfaceRiskPenalty, snowObservation, List.filterMap_cons,
      h31, h34]
  exact ⟨hc, ho,
    ((getWaitDirection_spec ⟨.good, false, false, 0, 0, 0⟩
        ⟨.good, false, false, 0, 0, 0⟩ [some clearObservation]
        [some snowObservation]).1 100 31 hc ho).2.1.mpr (by norm_num)⟩

/-- The base precipitation penalty is non-negative. -/
theorem precipBasePenalty_nonneg (i : ℚ) : 0 ≤ precipBasePenalty i := by
  unfold precipBasePenalty
  split_ifs <;> norm_num

/-- The base precipitation penalty is monotone in intensity. -/
theorem precipBasePenalty_mono {i₁ i₂ : ℚ} (h : i₁ ≤ i₂) :
    precipBasePenalty i₁ ≤ precipBasePenalty i₂ := by
  unfold precipBasePenalty
  split_ifs <;> linarith

/-- The base precipitation penalty vanishes exactly on no precipitation. -/
theorem precipBasePenalty_eq_zero (i : ℚ) :
    precipBasePenalty i = 0 ↔ i ≤ 0 := by
  unfold precipBasePenalty
  split_ifs <;> simp_all

/-- The type multiplier is positive. -/
theorem precipTypeMultiplier_pos (p t i : ℚ) :
    0 < precipTypeMultiplier p t i := by
  unfold precipTypeMultiplier
  split_ifs <;> norm_num

/-- For positive intensities the type multiplier does not depend on the
intensity. -/
theorem precipTypeMultiplier_congr (p t : ℚ) {i₁ i₂ : ℚ} (h₁ : 0 < i₁)
    (h₂ : 0 < i₂) :
    precipTypeMultiplier p t i₁ = precipTypeMultiplier p t i₂ := by
  unfold precipTypeMultiplier
  split_ifs <;> first | rfl | tauto

/-- jsRound is monotone. -/
theorem jsRound_mono {x y : ℚ} (h : x ≤ y) : jsRound x ≤ jsRound y :=
  Int.floor_le_floor (by linarith)

/-- The precipitation penalty is non-negative. -/
theorem calculatePrecipitationPenalty_nonneg (i p t : ℚ) :
    0 ≤ calculatePrecipitationPenalty i p t := by
  have h0 : jsRound 0 = 0 := jsRound_eq _ _ (by norm_num) (by norm_num)
  simp only [calculatePrecipitationPenalty]
  split_ifs with h
  · exact le_rfl
  · refine le_min (by norm_num) ?_
    rw [← h0]
    refine jsRound_mono ?_
    have hb := precipBasePenalty_nonneg i
    have hm := precipTypeMultiplier_pos p t i
    exact mul_nonneg (by exact_mod_cast hb) (le_of_lt hm)

/-- The precipitation penalty is monotone in intensity. -/
theorem calculatePrecipitationPenalty_mono (p t : ℚ) {i₁ i₂ : ℚ}
    (h : i₁ ≤ i₂) :
    calculatePrecipitationPenalty i₁ p t ≤
      calculatePrecipitationPenalty i₂ p t := by
  by_cases h1 : precipBasePenalty i₁ = 0
  · have hz : calculatePrecipitationPenalty i₁ p t = 0 := by
      unfold calculatePrecipitationPenalty
      rw [if_pos h1]
    rw [hz]
    exact calculatePrecipitationPenalty_nonneg i₂ p t
  · have hi₁ : 0 < i₁ := by
      by_contra hn
      exact h1 ((precipBasePenalty_eq_zero i₁).mpr (not_lt.mp hn))
    have hi₂ : 0 < i₂ := lt_of_lt_of_le hi₁ h
    have h2 : precipBasePenalty i₂ ≠ 0 := by
      rw [Ne, precipBasePenalty_eq_zero]
      exact not_le.mpr hi₂
    simp only [calculatePrecipitationPenalty]
    rw [if_neg h1, if_neg h2]
    refine min_le_min le_rfl (jsRound_mono ?_)
    rw [precipTypeMultiplier_congr p t hi₁ hi₂]
    refine mul_le_mul_of_nonneg_right ?_
      (le_of_lt (precipTypeMultiplier_pos p t i₂))
    exact_mod_cast precipBasePenalty_mono h

/-- The surface-risk penalty is monotone in intensity. -/
theorem calculateSurfaceRiskPenalty_mono (t : ℚ) {i₁ i₂ : ℚ} (h : i₁ ≤ i₂) :
    calculateSurfaceRiskPenalty t i₁ ≤ calculateSurfaceRiskPenalty t i₂ := by
  unfold calculateSurfaceRiskPenalty
  split_ifs <;> linarith

/-- C8: increasing precipitation intensity, all other fields fixed, never
increases the driving score. -/
theorem calculateDrivingScore_antitone_precipitation (w : WeatherData)
    (i₁ i₂ : ℚ) (h : i₁ ≤ i₂) :
    calculateDrivingScore { w with precipitationIntensity := i₂ } ≤
      calculateDrivingScore { w with precipitationIntensity := i₁ } := by
  have hp := calculatePrecipitationPenalty_mono w.precipitationType
    w.temperature h
  have hs := calculateSurfaceRiskPenalty_mono w.temperature h
  show max 0 (100 - (calculatePrecipitationPenalty i₂ w.precipitationType
        w.temperature + calculateVisibilityPenalty w.visibility +
        calculateWindPenalty w.windSpeed +
        calculateSurfaceRiskPenalty w.temperature i₂)) ≤
    max 0 (100 - (calculatePrecipitationPenalty i₁ w.precipitationType
        w.temperature + calculateVisibilityPenalty w.visibility +
        calculateWindPenalty w.windSpeed +
        calculateSurfaceRiskPenalty w.temperature i₁))
  exact max_le_max le_rfl (by linarith)

/-- C8 witness: raising the clear observation's intensity from 1 to
5 mm/h does not increase the score. -/
theorem calculateDrivingScore_antitone_precipitation_witness :
    (1 : ℚ) ≤ 5 ∧
    calculateDrivingScore
        { clearObservation with precipitationIntensity := 5 } ≤
      calculateDrivingScore
        { clearObservation with precipitationIntensity := 1 } :=
  ⟨by norm_num, calculateDrivingScore_antitone_precipitation
    clearObservation 1 5 (by norm_num)⟩

/-- C10: both provider symbol mappers land in 1..9 for every input code,
so a provider-normalized observation can satisfy neither symbol-range
test ([10,19] or [20,27]) of the severity scale. -/
theorem weatherSymbol_mappers_range (c : ℚ) (w : WeatherData) :
    (1 ≤ mapSMHIWeatherSymbol c ∧ mapSMHIWeatherSymbol c ≤ 9) ∧
    (1 ≤ mapWeatherCodeToSymbol c ∧ mapWeatherCodeToSymbol c ≤ 9) ∧
    ((w.weatherSymbol = mapSMHIWeatherSymbol c ∨
      w.weatherSymbol = mapWeatherCodeToSymbol c) →
      ¬(w.weatherSymbol ≥ 10 ∧ w.weatherSymbol ≤ 19) ∧
      ¬(w.weatherSymbol ≥ 20 ∧ w.weatherSymbol ≤ 27)) := by
  have h1 : 1 ≤ mapSMHIWeatherSymbol c ∧ mapSMHIWeatherSymbol c ≤ 9 := by
    unfold mapSMHIWeatherSymbol
    split_ifs <;> norm_num
  have h2 : 1 ≤ mapWeatherCodeToSymbol c ∧ mapWeatherCodeToSymbol c ≤ 9 := by
    unfold mapWeatherCodeToSymbol
    split_ifs <;> norm_num
  refine ⟨h1, h2, ?_⟩
  rintro (hw | hw) <;> rw [hw] <;> exact ⟨by omega, by omega⟩

/-- C10 witness: an observation normalized from SMHI code 15 (symbol 8)
satisfies neither symbol-range severity test. -/
theorem weatherSymbol_mappers_range_witness :
    ¬(({ clearObservation with weatherSymbol := mapSMHIWeatherSymbol 15 } :
        WeatherData).weatherSymbol ≥ 10 ∧
      ({ clearObservation with weatherSymbol := mapSMHIWeatherSymbol 15 } :
        WeatherData).weatherSymbol ≤ 19) ∧
    ¬(({ clearObservation with weatherSymbol := mapSMHIWeatherSymbol 15 } :
        WeatherData).weatherSymbol ≥ 20 ∧
      ({ clearObservation with weatherSymbol := mapSMHIWeatherSymbol 15 } :
        WeatherData).weatherSymbol ≤ 27) :=
  (weatherSymbol_mappers_range 15
    { clearObservation with weatherSymbol := mapSMHIWeatherSymbol 15 }).2.2
    (Or.inl rfl)

end DriversWeather
